import Mathlib

/-!
Verification of the adaptive-exam core of `cissp_app.py`.

The embedding covers:
* the difficulty catalog `DIFFICULTIES` (IRT anchors),
* the static question bank lookup `get_offline_question` with its fallback
  chain,
* the CAT ability engine (`CATEngine.probability`, `CATEngine.update`,
  `CATEngine.next_difficulty`, `CATEngine.stats`) over real numbers,
* the generative-source retry loop `generate_question_ai` and the reply
  validation pipeline (markdown-fence cleaning, JSON parsing, schema checks),
* the source dispatcher `get_question` and the answer handler of the test
  screen.

Python floats are modelled as real numbers, `random.choice(pool)` as
selection of the element at index `pick % pool.length` for an arbitrary
natural `pick`, and `time.sleep(1.5)` as appending the rational `3/2` to a
list of waits.
-/

/-- Keys of the `DIFFICULTIES` dict: the three difficulty tiers. -/
inductive Difficulty where
  | easy
  | medium
  | hard
deriving DecidableEq, BEq, Repr

/-- `DIFFICULTIES[d]["theta"]`: the IRT difficulty anchor of each tier
(−1.5 / 0.0 / +1.5). -/
noncomputable def DIFFICULTIES.theta : Difficulty → ℝ
  | .easy => -1.5
  | .medium => 0.0
  | .hard => 1.5

/-- Question provenance, the `"source"` field (`"offline"` or `"ai"`). -/
inductive Source where
  | offline
  | ai
deriving DecidableEq, BEq, Repr

/-- JSON values, as produced by Python's `json.loads` on the fragment this
app exchanges (objects, arrays, strings, integers, booleans, null; an
object keeps its key/value pairs in textual order, duplicate keys resolved
to the last occurrence on lookup, as Python dicts do). -/
inductive JVal where
  | null : JVal
  | bool : Bool → JVal
  | num : Int → JVal
  | str : String → JVal
  | arr : List JVal → JVal
  | obj : List (String × JVal) → JVal

/-- A record of the static bank `cissp_questions.json`, typed after the
bank contract (required `question`/`options`/`answer`, optional
`domain`/`difficulty`/`topic`/`explanation`/`id`; an absent optional key is
`none`). -/
structure BankRecord where
  domain : Option Int
  difficulty : Option Difficulty
  id : Option Int
  topic : Option JVal
  question : JVal
  options : JVal
  answer : Int
  explanation : Option JVal

/-- The dict returned by the question-fetching functions
(`get_offline_question` / `generate_question_ai`). -/
structure Question where
  domain_id : Int
  difficulty : Difficulty
  topic : JVal
  question : JVal
  options : JVal
  answer : Int
  explanation : JVal
  source : Source

/-- `q.get("id") not in used_ids` (an absent id is `None`, which is never a
member of the set of previously used bank ids). -/
def idNotUsed (q : BankRecord) (used_ids : List Int) : Bool :=
  match q.id with
  | some i => !(used_ids.contains i)
  | none => true

/-- The dict literal built at the end of `get_offline_question`:
`raw.get("domain", domain_id)`, `raw.get("difficulty", difficulty)`,
`raw.get("topic", "")`, `raw["question"]`, `raw["options"]`,
`int(raw["answer"])`, `raw.get("explanation", "No explanation provided.")`,
`"source": "offline"`. -/
def toQuestion (raw : BankRecord) (domain_id : Int) (difficulty : Difficulty) :
    Question where
  domain_id := raw.domain.getD domain_id
  difficulty := raw.difficulty.getD difficulty
  topic := raw.topic.getD (.str "")
  question := raw.question
  options := raw.options
  answer := raw.answer
  explanation := raw.explanation.getD (.str "No explanation provided.")
  source := .offline

/-- `get_offline_question(domain_id, difficulty, used_ids)`.  The loaded
bank is passed explicitly; `random.choice(pool)` is modelled as the element
at index `pick % pool.length`. -/
def get_offline_question (bank : List BankRecord) (domain_id : Int)
    (difficulty : Difficulty) (used_ids : List Int) (pick : Nat) :
    Option Question :=
  if bank.isEmpty then none
  else
    -- Try exact match: domain + difficulty, not already used
    let pool := bank.filter fun q =>
      q.domain == some domain_id && q.difficulty == some difficulty &&
        idNotUsed q used_ids
    -- Fallback 1: same domain, any difficulty
    let pool := if pool.isEmpty then
        bank.filter fun q => q.domain == some domain_id && idNotUsed q used_ids
      else pool
    -- Fallback 2: any question not yet used
    let pool := if pool.isEmpty then bank.filter (idNotUsed · used_ids) else pool
    -- Fallback 3: entire bank (allow repeats)
    let pool := if pool.isEmpty then bank else pool
    if pool.isEmpty then none
    else (pool.get? (pick % pool.length)).map fun raw =>
      toQuestion raw domain_id difficulty

/-- Spec-side description, tier 1: same domain and same difficulty,
excluding used ids. -/
def poolTier1 (bank : List BankRecord) (domain_id : Int)
    (difficulty : Difficulty) (used_ids : List Int) : List BankRecord :=
  bank.filter fun q =>
    q.domain == some domain_id && q.difficulty == some difficulty &&
      idNotUsed q used_ids

/-- Spec-side description, tier 2: same domain, any difficulty, excluding
used ids. -/
def poolTier2 (bank : List BankRecord) (domain_id : Int)
    (used_ids : List Int) : List BankRecord :=
  bank.filter fun q => q.domain == some domain_id && idNotUsed q used_ids

/-- Spec-side description, tier 3: any record excluding used ids. -/
def poolTier3 (bank : List BankRecord) (used_ids : List Int) :
    List BankRecord :=
  bank.filter (idNotUsed · used_ids)

/-- Spec-side description: the first non-empty candidate pool of a fallback
chain. -/
def firstNonEmptyPool : List (List BankRecord) → List BankRecord
  | [] => []
  | p :: ps => if p.isEmpty then firstNonEmptyPool ps else p

/-- Python default whitespace, as stripped by `str.strip()`. -/
def isPySpace (c : Char) : Bool :=
  c == ' ' || c == '\t' || c == '\n' || c == '\r' ||
    c == Char.ofNat 11 || c == Char.ofNat 12

/-- JSON insignificant whitespace (space, tab, newline, carriage return). -/
def isJsonWs (c : Char) : Bool :=
  c == ' ' || c == '\t' || c == '\n' || c == '\r'

/-- Drops leading JSON whitespace. -/
def skipWs : List Char → List Char
  | c :: cs => if isJsonWs c then skipWs cs else c :: cs
  | [] => []

/-- Meaning of a character following a backslash inside a JSON string
(`\u` escapes are outside the modelled fragment and fail). -/
def escChar : Char → Option Char
  | '\"' => some '\"'
  | '\\' => some '\\'
  | '/' => some '/'
  | 'n' => some '\n'
  | 't' => some '\t'
  | 'r' => some '\r'
  | 'b' => some (Char.ofNat 8)
  | 'f' => some (Char.ofNat 12)
  | _ => none

/-- Body of a JSON string after the opening quote: returns the decoded
characters and the input past the closing quote.  Unescaped control
characters are invalid, as in `json.loads`. -/
def parseStrChars : List Char → Option (List Char × List Char)
  | [] => none
  | '\"' :: cs => some ([], cs)
  | '\\' :: [] => none
  | '\\' :: e :: cs =>
    match escChar e with
    | none => none
    | some c =>
      match parseStrChars cs with
      | none => none
      | some (s, rest) => some (c :: s, rest)
  | c :: cs =>
    if c.toNat < 32 then none
    else
      match parseStrChars cs with
      | none => none
      | some (s, rest) => some (c :: s, rest)

/-- Numeric value of a digit string. -/
def digitsVal (ds : List Char) : Nat :=
  ds.foldl (fun n c => 10 * n + (c.toNat - 48)) 0

/-- A JSON integer literal (the modelled fragment has no fractions or
exponents): at least one digit, no leading zero. -/
def parseIntDigits (cs : List Char) : Option (Nat × List Char) :=
  let ds := cs.takeWhile (·.isDigit)
  let rest := cs.dropWhile (·.isDigit)
  match ds with
  | [] => none
  | '0' :: _ :: _ => none
  | _ => some (digitsVal ds, rest)

mutual

/-- A JSON value with leading whitespace, fuel-bounded (the fuel supplied
by `pyJsonLoads` always suffices). -/
def parseVal (fuel : Nat) (cs : List Char) : Option (JVal × List Char) :=
  match fuel with
  | 0 => none
  | fuel + 1 =>
    match skipWs cs with
    | '\"' :: rest =>
      match parseStrChars rest with
      | some (s, r) => some (.str (String.mk s), r)
      | none => none
    | '\x7b' :: rest => parseObjBody fuel rest
    | '[' :: rest => parseArrBody fuel rest
    | 't' :: 'r' :: 'u' :: 'e' :: rest => some (.bool true, rest)
    | 'f' :: 'a' :: 'l' :: 's' :: 'e' :: rest => some (.bool false, rest)
    | 'n' :: 'u' :: 'l' :: 'l' :: rest => some (.null, rest)
    | '-' :: rest =>
      match parseIntDigits rest with
      | some (n, r) => some (.num (-(n : Int)), r)
      | none => none
    | rest =>
      match parseIntDigits rest with
      | some (n, r) => some (.num (n : Int), r)
      | none => none

/-- Array contents after the opening bracket. -/
def parseArrBody (fuel : Nat) (cs : List Char) : Option (JVal × List Char) :=
  match fuel with
  | 0 => none
  | fuel + 1 =>
    match skipWs cs with
    | ']' :: rest => some (.arr [], rest)
    | cs2 =>
      match parseVal fuel cs2 with
      | none => none
      | some (v, r1) =>
        match parseArrTail fuel r1 with
        | none => none
        | some (vs, r2) => some (.arr (v :: vs), r2)

/-- Array elements after the first: a comma-separated tail up to the
closing bracket. -/
def parseArrTail (fuel : Nat) (cs : List Char) :
    Option (List JVal × List Char) :=
  match fuel with
  | 0 => none
  | fuel + 1 =>
    match skipWs cs with
    | ']' :: rest => some ([], rest)
    | ',' :: rest =>
      match parseVal fuel rest with
      | none => none
      | some (v, r1) =>
        match parseArrTail fuel r1 with
        | none => none
        | some (vs, r2) => some (v :: vs, r2)
    | _ => none

/-- Object contents after the opening brace. -/
def parseObjBody (fuel : Nat) (cs : List Char) : Option (JVal × List Char) :=
  match fuel with
  | 0 => none
  | fuel + 1 =>
    match skipWs cs with
    | '\x7d' :: rest => some (.obj [], rest)
    | '\"' :: rest =>
      match parseStrChars rest with
      | none => none
      | some (k, r1) =>
        match skipWs r1 with
        | ':' :: r2 =>
          match parseVal fuel r2 with
          | none => none
          | some (v, r3) =>
            match parseObjTail fuel r3 with
            | none => none
            | some (kvs, r4) => some (.obj ((String.mk k, v) :: kvs), r4)
        | _ => none
    | _ => none

/-- Object members after the first: a comma-separated tail up to the
closing brace. -/
def parseObjTail (fuel : Nat) (cs : List Char) :
    Option (List (String × JVal) × List Char) :=
  match fuel with
  | 0 => none
  | fuel + 1 =>
    match skipWs cs with
    | '\x7d' :: rest => some ([], rest)
    | ',' :: rest =>
      match skipWs rest with
      | '\"' :: r1 =>
        match parseStrChars r1 with
        | none => none
        | some (k, r2) =>
          match skipWs r2 with
          | ':' :: r3 =>
            match parseVal fuel r3 with
            | none => none
            | some (v, r4) =>
              match parseObjTail fuel r4 with
              | none => none
              | some (kvs, r5) => some ((String.mk k, v) :: kvs, r5)
          | _ => none
      | _ => none
    | _ => none

end

/-- `json.loads` on the modelled JSON fragment: the whole input, up to
surrounding whitespace, must be a single JSON value. -/
def pyJsonLoads (cs : List Char) : Option JVal :=
  match parseVal (4 * cs.length + 4) cs with
  | some (v, rest) => if (skipWs rest).isEmpty then some v else none
  | none => none

/-- Python `s.replace(old, new)` (left-to-right, non-overlapping), with
fuel equal to the length of `s`; every step consumes at least one
character, so the fuel always suffices. -/
def pyReplaceAux (old new : List Char) : Nat → List Char → List Char
  | _, [] => []
  | 0, s => s
  | fuel + 1, c :: cs =>
    if old.isPrefixOf (c :: cs) then
      new ++ pyReplaceAux old new fuel ((c :: cs).drop old.length)
    else c :: pyReplaceAux old new fuel cs

/-- Python `s.replace(old, new)`. -/
def pyReplace (s old new : List Char) : List Char :=
  pyReplaceAux old new s.length s

/-- Python `s.strip()`. -/
def pyStrip (s : List Char) : List Char :=
  ((s.dropWhile isPySpace).reverse.dropWhile isPySpace).reverse

/-- The reply-cleaning steps of `generate_question_ai`:
`raw = text.strip()`, then
`raw = raw.replace("```json", "").replace("```", "").strip()`, then if
`raw` does not start with an opening brace, slice from the first opening
brace when one exists (`raw.find` / `raw[idx:]`). -/
def cleanReply (text : List Char) : List Char :=
  let raw := pyStrip text
  let raw := pyStrip (pyReplace (pyReplace raw "```json".toList []) "```".toList [])
  match raw with
  | '\x7b' :: _ => raw
  | _ =>
    match raw.findIdx? (· == '\x7b') with
    | some i => raw.drop i
    | none => raw

/-- Python `data[k]` for the parsed reply: defined only on objects
(`KeyError` on a missing key and `TypeError` on a non-dict both surface as
`none`, and both are caught by the retry loop); duplicate keys resolve to
the last occurrence, as in a Python dict built by `json.loads`. -/
def jget : JVal → String → Option JVal
  | .obj kvs, k => ((kvs.filter (fun p => p.1 == k)).getLast?).map Prod.snd
  | _, _ => none

/-- Python `len(v)`: length of an array, string, or dict (distinct keys);
`TypeError` (surfacing as `none`) otherwise. -/
def jlen : JVal → Option Nat
  | .arr xs => some xs.length
  | .str s => some s.length
  | .obj kvs => some ((kvs.map Prod.fst).eraseDups).length
  | _ => none

/-- Python `data["answer"] in (0, 1, 2, 3)`: integers 0..3 pass, and so do
both booleans, because in Python `True == 1` and `False == 0`. -/
def answerIn0123 : JVal → Bool
  | .num n => decide (0 ≤ n ∧ n ≤ 3)
  | .bool _ => true
  | _ => false

/-- Python `int(data["answer"])` on a value that already passed the
membership check, hence a number or a boolean; the remaining cases are
unreachable. -/
def jint : JVal → Int
  | .num n => n
  | .bool b => if b then 1 else 0
  | _ => 0

/-- Body of one `generate_question_ai` attempt after the provider returned
reply text (lines 232-250): clean the text, `json.loads` it, assert
`len(data["options"]) == 4` and `data["answer"] in (0,1,2,3)`, then build
the question dict; any raised exception (parse failure, failed assert,
missing key) yields `none` and is caught by the retry loop. -/
def validateReply (domain_id : Int) (difficulty : Difficulty) (topic : String)
    (text : List Char) : Option Question :=
  let raw := cleanReply text
  match pyJsonLoads raw with
  | none => none
  | some data =>
    match jget data "options" with
    | none => none
    | some opts =>
      match jlen opts with
      | none => none
      | some n =>
        if n ≠ 4 then none
        else
          match jget data "answer" with
          | none => none
          | some ans =>
            if !(answerIn0123 ans) then none
            else
              match jget data "question", jget data "explanation" with
              | some qv, some ev =>
                some { domain_id := domain_id, difficulty := difficulty,
                       topic := (jget data "topic").getD (.str topic),
                       question := qv, options := opts,
                       answer := jint ans, explanation := ev, source := .ai }
              | _, _ => none

/-- Observable outcome of one `generate_question_ai` call: the returned
question or the raised error text, the number of attempts made, and the
sequence of `time.sleep` waits (in seconds, as rationals). -/
structure AiRun where
  outcome : Except String Question
  attempts : Nat
  waits : List ℚ

/-- The retry loop of `generate_question_ai` (lines 224-256), unrolled
from `for attempt in range(1, 4)`.  `tries k` abstracts the body of
attempt `k` (provider call plus reply validation): the built question, or
the text `str(e)` of the exception it raised.  A failed attempt below the
third is followed by `time.sleep(1.5)`; exhaustion raises
`RuntimeError(f"AI generation failed after 3 attempts: ...")` carrying the
last failure text. -/
def generate_question_ai (tries : Nat → Except String Question) : AiRun :=
  match tries 1 with
  | .ok q => ⟨.ok q, 1, []⟩
  | .error _ =>
    match tries 2 with
    | .ok q => ⟨.ok q, 2, [3 / 2]⟩
    | .error _ =>
      match tries 3 with
      | .ok q => ⟨.ok q, 3, [3 / 2, 3 / 2]⟩
      | .error e3 =>
        ⟨.error ("AI generation failed after 3 attempts: " ++ e3), 3,
          [3 / 2, 3 / 2]⟩

/-- Values of the session `mode` configuration. -/
inductive Mode where
  | offline
  | online
  | hybrid
deriving DecidableEq, BEq, Repr

/-- The error message raised by `get_question` in offline mode on an empty
bank. -/
def emptyBankMsg : String :=
  "Question bank is empty or cissp_questions.json not found. " ++
    "Switch to Online or Hybrid mode, or add the question bank file."

/-- `get_question(domain_id, difficulty, used_topics, used_ids, mode)`:
the master fetcher.  The loaded bank and the `random.choice` index are
explicit, and `ai` abstracts the result of
`generate_question_ai(domain_id, difficulty, used_topics)` (the question
it returns or the error it raises). -/
def get_question (domain_id : Int) (difficulty : Difficulty)
    (used_ids : List Int) (mode : Mode) (bank : List BankRecord) (pick : Nat)
    (ai : Except String Question) : Except String Question :=
  match mode with
  | .online => ai
  | .offline =>
    match get_offline_question bank domain_id difficulty used_ids pick with
    | none => .error emptyBankMsg
    | some q => .ok q
  | .hybrid =>
    -- Hybrid — offline first
    match get_offline_question bank domain_id difficulty used_ids pick with
    | some q => .ok q
    | none => ai

noncomputable section

/-- One entry of `CATEngine.responses`:
`{"difficulty": ..., "correct": ..., "theta": ...}`. -/
structure ResponseRecord where
  difficulty : Difficulty
  correct : Bool
  theta : ℝ

/-- The CAT engine state: ability estimate `theta` and the response
history. -/
structure CATEngine where
  theta : ℝ
  responses : List ResponseRecord

/-- `CATEngine.__init__(starting_difficulty)`: θ starts at the anchor of
the starting tier, with an empty history. -/
def CATEngine.init (starting_difficulty : Difficulty) : CATEngine :=
  ⟨DIFFICULTIES.theta starting_difficulty, []⟩

/-- `CATEngine.probability(b, a=1.2, c=0.25)`:
`c + (1 - c) / (1 + math.exp(-a * (self.theta - b)))`.  Call sites pass
the Python defaults `a = 1.2`, `c = 0.25` explicitly. -/
def CATEngine.probability (e : CATEngine) (b a c : ℝ) : ℝ :=
  c + (1 - c) / (1 + Real.exp (-(a * (e.theta - b))))

/-- `CATEngine.update(difficulty, correct)`: θ moves by
`0.4 * (1 - p)` when correct and `-0.4 * p` when incorrect, is clamped to
[-3, 3], and one response record is appended. -/
def CATEngine.update (e : CATEngine) (difficulty : Difficulty)
    (correct : Bool) : CATEngine :=
  let b := DIFFICULTIES.theta difficulty
  let p := e.probability b 1.2 0.25
  let step := if correct then 0.4 * (1 - p) else -0.4 * p
  let theta2 := max (-3.0) (min 3.0 (e.theta + step))
  ⟨theta2, e.responses ++ [⟨difficulty, correct, theta2⟩]⟩

/-- `CATEngine.next_difficulty()`. -/
def CATEngine.next_difficulty (e : CATEngine) : Difficulty :=
  if e.responses.length < 2 then .medium
  else if e.theta ≥ 0.8 then .hard
  else if e.theta ≤ -0.8 then .easy
  else .medium

/-- Python `round()` (banker's rounding, ties to the even integer) on an
exact rational; the float representation error of the Python value is not
modelled. -/
def pyRound (q : ℚ) : Int :=
  if q - ⌊q⌋ < 1 / 2 then ⌊q⌋
  else if 1 / 2 < q - ⌊q⌋ then ⌊q⌋ + 1
  else if 2 ∣ ⌊q⌋ then ⌊q⌋ else ⌊q⌋ + 1

/-- The dict returned by `CATEngine.stats()`. -/
structure Stats where
  total : Nat
  correct : Nat
  pct : Int
  by_diff : Difficulty → Nat × Nat
  theta_history : List ℝ

/-- `CATEngine.stats()`: totals, per-tier breakdown, and
`theta_history = [0.0] + [r["theta"] for r in self.responses]`. -/
def CATEngine.stats (e : CATEngine) : Stats :=
  let total := e.responses.length
  let correct := (e.responses.filter (·.correct)).length
  { total := total
    correct := correct
    pct := if total = 0 then 0 else pyRound ((correct : ℚ) / (total : ℚ) * 100)
    by_diff := fun d =>
      let items := e.responses.filter (·.difficulty == d)
      (items.length, (items.filter (·.correct)).length)
    theta_history := 0.0 :: e.responses.map ResponseRecord.theta }

/-- The answer-button handler of `screen_test` (lines 680-686):
`correct = (i == q["answer"]); cat.update(q["difficulty"], correct)` —
the update uses the difficulty carried by the question itself. -/
def answer_click (cat : CATEngine) (q : Question) (i : Int) : CATEngine :=
  cat.update q.difficulty (i == q.answer)

/-- Folds a finite sequence of `(difficulty, correct)` responses through
`CATEngine.update`. -/
def runUpdates (e : CATEngine) : List (Difficulty × Bool) → CATEngine
  | [] => e
  | (d, c) :: rest => runUpdates (e.update d c) rest

end

/-- The 3PL probability of a medium item (anchor 0) at θ = 0 is exactly
`0.25 + 0.75 / (1 + e⁰) = 0.625`. -/
lemma probability_theta0_b0 (rs : List ResponseRecord) :
    (CATEngine.mk 0 rs).probability 0 1.2 0.25 = 0.625 := by
  show (0.25 : ℝ) + (1 - 0.25) / (1 + Real.exp (-(1.2 * (0 - 0)))) = 0.625
  norm_num [Real.exp_zero]

/-- C1: `update(tier, correct)` sets `θ' = clamp(θ + step, -3, 3)` with
`step = 0.4·(1−p)` when correct and `−0.4·p` when incorrect for
`p = probability(anchor(tier))`, and appends exactly one response record;
from θ = 0.0, `update(medium, True)` yields θ = 0.15 (via p = 0.625) and
`update(medium, False)` yields θ = −0.25. -/
theorem C1_update_rule :
    (∀ (e : CATEngine) (tier : Difficulty) (correct : Bool),
      (e.update tier correct).theta =
        max (-3.0) (min 3.0 (e.theta +
          (if correct then
            0.4 * (1 - e.probability (DIFFICULTIES.theta tier) 1.2 0.25)
          else -0.4 * e.probability (DIFFICULTIES.theta tier) 1.2 0.25))) ∧
      (e.update tier correct).responses =
        e.responses ++ [⟨tier, correct, (e.update tier correct).theta⟩] ∧
      (e.update tier correct).responses.length = e.responses.length + 1) ∧
    (CATEngine.init .medium).theta = 0.0 ∧
    (CATEngine.init .medium).probability
      (DIFFICULTIES.theta .medium) 1.2 0.25 = 0.625 ∧
    ((CATEngine.init .medium).update .medium true).theta = 0.15 ∧
    ((CATEngine.init .medium).update .medium false).theta = -0.25 := by
  refine ⟨fun e tier correct => ⟨rfl, rfl, by simp [CATEngine.update]⟩,
    rfl, ?_, ?_, ?_⟩
  · show (0.25 : ℝ) + (1 - 0.25) / (1 + Real.exp (-(1.2 * (0.0 - 0.0)))) = 0.625
    norm_num [Real.exp_zero]
  · show max (-3.0) (min 3.0 ((0.0:ℝ) +
        (0.4 * (1 - (0.25 + (1 - 0.25) / (1 + Real.exp (-(1.2 * (0.0 - 0.0)))))))))
        = 0.15
    rw [show (-(1.2 * ((0.0:ℝ) - 0.0))) = 0 by norm_num, Real.exp_zero]
    rw [show ((0.0:ℝ) + (0.4 * (1 - (0.25 + (1 - 0.25) / (1 + 1))))) = 0.15
      by norm_num]
    rw [min_eq_right (by norm_num : (0.15:ℝ) ≤ 3.0),
      max_eq_right (by norm_num : (-3.0:ℝ) ≤ 0.15)]
  · show max (-3.0) (min 3.0 ((0.0:ℝ) +
        (-0.4 * (0.25 + (1 - 0.25) / (1 + Real.exp (-(1.2 * (0.0 - 0.0)))))))) =
        -0.25
    rw [show (-(1.2 * ((0.0:ℝ) - 0.0))) = 0 by norm_num, Real.exp_zero]
    rw [show ((0.0:ℝ) + (-0.4 * (0.25 + (1 - 0.25) / (1 + 1)))) = -0.25
      by norm_num]
    rw [min_eq_right (by norm_num : (-0.25:ℝ) ≤ 3.0),
      max_eq_right (by norm_num : (-3.0:ℝ) ≤ -0.25)]

/-- Clamping keeps θ within [-3, 3] after every single update. -/
lemma update_theta_range (e : CATEngine) (d : Difficulty) (c : Bool) :
    -3 ≤ (e.update d c).theta ∧ (e.update d c).theta ≤ 3 := by
  constructor
  · calc (-3:ℝ) = -3.0 := by norm_num
      _ ≤ (e.update d c).theta := le_max_left _ _
  · exact max_le (by norm_num)
      (le_trans (min_le_left _ _) (by norm_num))

/-- Running any update sequence preserves the range invariant on θ and on
every recorded θ. -/
lemma runUpdates_range (l : List (Difficulty × Bool)) :
    ∀ e : CATEngine, (-3 ≤ e.theta ∧ e.theta ≤ 3) →
      e.responses.Forall (fun r => -3 ≤ r.theta ∧ r.theta ≤ 3) →
      (-3 ≤ (runUpdates e l).theta ∧ (runUpdates e l).theta ≤ 3) ∧
      (runUpdates e l).responses.Forall
        (fun r => -3 ≤ r.theta ∧ r.theta ≤ 3) := by
  induction l with
  | nil => exact fun e h1 h2 => ⟨h1, h2⟩
  | cons p rest ih =>
    intro e h1 h2
    obtain ⟨d, c⟩ := p
    show (-3 ≤ (runUpdates (e.update d c) rest).theta ∧ _) ∧ _
    apply ih
    · exact update_theta_range e d c
    · rw [List.forall_iff_forall_mem] at h2 ⊢
      intro r hr
      rw [show (e.update d c).responses =
        e.responses ++ [⟨d, c, (e.update d c).theta⟩] from rfl,
        List.mem_append] at hr
      rcases hr with hr | hr
      · exact h2 r hr
      · rw [List.mem_singleton] at hr
        subst hr
        exact update_theta_range e d c

/-- C5: for every starting tier (anchors −1.5 / 0.0 / +1.5 are in range)
and every finite sequence of `(tier, correct)` updates, θ stays within
[-3, 3] after every update. -/
theorem C5_theta_in_range (d : Difficulty) (l : List (Difficulty × Bool)) :
    (-3 ≤ (CATEngine.init d).theta ∧ (CATEngine.init d).theta ≤ 3) ∧
    (-3 ≤ (runUpdates (CATEngine.init d) l).theta ∧
      (runUpdates (CATEngine.init d) l).theta ≤ 3) ∧
    (runUpdates (CATEngine.init d) l).responses.Forall
      (fun r => -3 ≤ r.theta ∧ r.theta ≤ 3) := by
  have hinit : -3 ≤ (CATEngine.init d).theta ∧ (CATEngine.init d).theta ≤ 3 := by
    cases d <;> constructor <;> norm_num [CATEngine.init, DIFFICULTIES.theta]
  have h := runUpdates_range l (CATEngine.init d) hinit (by
    show List.Forall _ ([] : List ResponseRecord)
    exact trivial)
  exact ⟨hinit, h.1, h.2⟩

/-- C7: with a = 1.2 and c = 0.25, `probability(b)` is strictly
increasing in θ over θ ∈ [-3, 3] and b ∈ [-1.5, 1.5], its value lies
strictly within (0.25, 1.0), and at θ = 0, b = 0 it equals 0.625. -/
theorem C7_probability_monotone_bounded (θ θ2 b : ℝ)
    (h1 : -3 ≤ θ) (h2 : θ ≤ 3) (h3 : -3 ≤ θ2) (h4 : θ2 ≤ 3)
    (h5 : -1.5 ≤ b) (h6 : b ≤ 1.5) :
    (θ < θ2 →
      (CATEngine.mk θ []).probability b 1.2 0.25 <
        (CATEngine.mk θ2 []).probability b 1.2 0.25) ∧
    0.25 < (CATEngine.mk θ []).probability b 1.2 0.25 ∧
    (CATEngine.mk θ []).probability b 1.2 0.25 < 1 ∧
    (CATEngine.mk 0 []).probability 0 1.2 0.25 = 0.625 := by
  refine ⟨?_, ?_, ?_, probability_theta0_b0 []⟩
  · intro hlt
    show (0.25:ℝ) + (1 - 0.25) / (1 + Real.exp (-(1.2 * (θ - b)))) <
      0.25 + (1 - 0.25) / (1 + Real.exp (-(1.2 * (θ2 - b))))
    have hexp : Real.exp (-(1.2 * (θ2 - b))) < Real.exp (-(1.2 * (θ - b))) := by
      rw [Real.exp_lt_exp]
      linarith
    have hd2 : (0:ℝ) < 1 + Real.exp (-(1.2 * (θ2 - b))) := by
      have := Real.exp_pos (-(1.2 * (θ2 - b)))
      linarith
    have := div_lt_div_of_pos_left
      (show (0:ℝ) < 1 - 0.25 by norm_num) hd2
      (show (1:ℝ) + Real.exp (-(1.2 * (θ2 - b))) <
        1 + Real.exp (-(1.2 * (θ - b))) by linarith)
    linarith
  · show (0.25:ℝ) < 0.25 + (1 - 0.25) / (1 + Real.exp (-(1.2 * (θ - b))))
    have he := Real.exp_pos (-(1.2 * (θ - b)))
    have : (0:ℝ) < (1 - 0.25) / (1 + Real.exp (-(1.2 * (θ - b)))) :=
      div_pos (by norm_num) (by linarith)
    linarith
  · show (0.25:ℝ) + (1 - 0.25) / (1 + Real.exp (-(1.2 * (θ - b)))) < 1
    have he := Real.exp_pos (-(1.2 * (θ - b)))
    have : (1 - 0.25 : ℝ) / (1 + Real.exp (-(1.2 * (θ - b)))) < 1 - 0.25 :=
      div_lt_self (by norm_num) (by linarith)
    linarith

/-- Witness for C7 at θ = 0, θ2 = 1, b = 0. -/
theorem C7_probability_monotone_bounded_witness :
    (CATEngine.mk 0 []).probability 0 1.2 0.25 <
      (CATEngine.mk 1 []).probability 0 1.2 0.25 ∧
    0.25 < (CATEngine.mk 0 []).probability 0 1.2 0.25 ∧
    (CATEngine.mk 0 []).probability 0 1.2 0.25 < 1 ∧
    (CATEngine.mk 0 []).probability 0 1.2 0.25 = 0.625 := by
  have h := C7_probability_monotone_bounded 0 1 0 (by norm_num) (by norm_num)
    (by norm_num) (by norm_num) (by norm_num) (by norm_num)
  exact ⟨h.1 (by norm_num), h.2.1, h.2.2.1, h.2.2.2⟩

/-- Each update appends one record, so running `l` adds `l.length`
records. -/
lemma runUpdates_length (l : List (Difficulty × Bool)) :
    ∀ e : CATEngine,
      (runUpdates e l).responses.length = e.responses.length + l.length := by
  induction l with
  | nil => intro e; rfl
  | cons p rest ih =>
    intro e
    obtain ⟨d, c⟩ := p
    show (runUpdates (e.update d c) rest).responses.length = _
    rw [ih]
    simp [CATEngine.update]
    omega

/-- C8: `stats().theta_history` always starts with the fixed baseline 0.0
(whatever the starting anchor), followed in order by the θ recorded after
each response, so its length is one more than the number of responses. -/
theorem C8_theta_history (d : Difficulty) (l : List (Difficulty × Bool)) :
    (CATEngine.stats (runUpdates (CATEngine.init d) l)).theta_history =
      0.0 :: (runUpdates (CATEngine.init d) l).responses.map
        ResponseRecord.theta ∧
    (CATEngine.stats (runUpdates (CATEngine.init d) l)).theta_history.head? =
      some 0.0 ∧
    (CATEngine.stats (runUpdates (CATEngine.init d) l)).theta_history.length =
      (runUpdates (CATEngine.init d) l).responses.length + 1 ∧
    (runUpdates (CATEngine.init d) l).responses.length = l.length := by
  refine ⟨rfl, rfl, ?_, ?_⟩
  · show (0.0 :: (runUpdates (CATEngine.init d) l).responses.map
      ResponseRecord.theta).length = _
    simp
  · rw [runUpdates_length]
    simp [CATEngine.init]

/-- C9: `next_difficulty` depends only on the response count and θ;
below 2 responses it is medium regardless of θ, and from 2 responses on
it is hard when θ ≥ 0.8, easy when θ ≤ −0.8, and medium otherwise. -/
theorem C9_next_difficulty (e : CATEngine) :
    (∀ e2 : CATEngine, e.theta = e2.theta →
      e.responses.length = e2.responses.length →
      e.next_difficulty = e2.next_difficulty) ∧
    (e.responses.length < 2 → e.next_difficulty = .medium) ∧
    (2 ≤ e.responses.length →
      (0.8 ≤ e.theta → e.next_difficulty = .hard) ∧
      (e.theta ≤ -0.8 → e.next_difficulty = .easy) ∧
      (-0.8 < e.theta → e.theta < 0.8 → e.next_difficulty = .medium)) := by
  refine ⟨?_, ?_, ?_⟩
  · intro e2 ht hl
    unfold CATEngine.next_difficulty
    rw [ht, hl]
  · intro h
    unfold CATEngine.next_difficulty
    rw [if_pos h]
  · intro h
    refine ⟨?_, ?_, ?_⟩
    · intro h8
      unfold CATEngine.next_difficulty
      rw [if_neg (by omega), if_pos (show e.theta ≥ 0.8 from h8)]
    · intro h8
      unfold CATEngine.next_difficulty
      rw [if_neg (by omega),
        if_neg (show ¬ e.theta ≥ 0.8 by simp; linarith), if_pos h8]
    · intro ha hb
      unfold CATEngine.next_difficulty
      rw [if_neg (by omega),
        if_neg (show ¬ e.theta ≥ 0.8 by simp; linarith),
        if_neg (show ¬ e.theta ≤ -0.8 by simp; linarith)]

/-- Witness for C9: θ = 2.9 with one prior response still selects
medium. -/
theorem C9_next_difficulty_witness :
    (CATEngine.mk 2.9 [⟨.medium, true, 2.9⟩]).next_difficulty = .medium :=
  (C9_next_difficulty _).2.1 (by decide)

/-- Spec-side description of the whole fallback chain: the first non-empty
pool among tiers 1-3 and the entire bank. -/
def fallbackChain (bank : List BankRecord) (did : Int) (diff : Difficulty)
    (used : List Int) : List BankRecord :=
  firstNonEmptyPool [poolTier1 bank did diff used, poolTier2 bank did used,
    poolTier3 bank used, bank]

/-- The sequential let-chain of `get_offline_question` selects exactly the
first non-empty pool of the spec-side chain. -/
lemma get_offline_eq (bank : List BankRecord) (did : Int) (diff : Difficulty)
    (used : List Int) (pick : Nat) :
    get_offline_question bank did diff used pick =
      ((fallbackChain bank did diff used).get?
        (pick % (fallbackChain bank did diff used).length)).map
        (fun raw => toQuestion raw did diff) := by
  unfold get_offline_question fallbackChain poolTier1 poolTier2 poolTier3
  by_cases hb : bank = []
  · subst hb
    simp [firstNonEmptyPool]
  · by_cases h1 : bank.filter (fun q =>
        q.domain == some did && q.difficulty == some diff &&
          idNotUsed q used) = []
    · by_cases h2 : bank.filter (fun q =>
          q.domain == some did && idNotUsed q used) = []
      · by_cases h3 : bank.filter (idNotUsed · used) = []
        · simp [firstNonEmptyPool, List.isEmpty_iff, hb, h1, h2, h3]
        · simp [firstNonEmptyPool, List.isEmpty_iff, hb, h1, h2, h3]
      · simp [firstNonEmptyPool, List.isEmpty_iff, hb, h1, h2]
    · simp [firstNonEmptyPool, List.isEmpty_iff, hb, h1]

/-- The fallback chain is one of the four candidate pools. -/
lemma fallbackChain_cases (bank : List BankRecord) (did : Int)
    (diff : Difficulty) (used : List Int) :
    fallbackChain bank did diff used = poolTier1 bank did diff used ∨
    fallbackChain bank did diff used = poolTier2 bank did used ∨
    fallbackChain bank did diff used = poolTier3 bank used ∨
    fallbackChain bank did diff used = bank := by
  unfold fallbackChain
  by_cases h1 : poolTier1 bank did diff used = []
  · by_cases h2 : poolTier2 bank did used = []
    · by_cases h3 : poolTier3 bank used = []
      · by_cases hb : bank = []
        · subst hb
          right; right; right
          simp [firstNonEmptyPool, List.isEmpty_iff, h1, h2, h3]
        · right; right; right
          simp [firstNonEmptyPool, List.isEmpty_iff, h1, h2, h3, hb]
      · right; right; left
        simp [firstNonEmptyPool, List.isEmpty_iff, h1, h2, h3]
    · right; left
      simp [firstNonEmptyPool, List.isEmpty_iff, h1, h2]
  · left
    simp [firstNonEmptyPool, List.isEmpty_iff, h1]

/-- Every record of the fallback chain comes from the bank. -/
lemma fallbackChain_subset (bank : List BankRecord) (did : Int)
    (diff : Difficulty) (used : List Int) :
    ∀ r ∈ fallbackChain bank did diff used, r ∈ bank := by
  rcases fallbackChain_cases bank did diff used with h | h | h | h <;>
    rw [h] <;> intro r hr
  · exact List.mem_of_mem_filter hr
  · exact List.mem_of_mem_filter hr
  · exact List.mem_of_mem_filter hr
  · exact hr

/-- On a non-empty bank the fallback chain is non-empty (its last pool is
the entire bank). -/
lemma fallbackChain_ne (bank : List BankRecord) (did : Int)
    (diff : Difficulty) (used : List Int) (hb : bank ≠ []) :
    fallbackChain bank did diff used ≠ [] := by
  unfold fallbackChain
  by_cases h1 : poolTier1 bank did diff used = []
  · by_cases h2 : poolTier2 bank did used = []
    · by_cases h3 : poolTier3 bank used = []
      · simp [firstNonEmptyPool, List.isEmpty_iff, h1, h2, h3, hb]
      · simp [firstNonEmptyPool, List.isEmpty_iff, h1, h2, h3]
    · simp [firstNonEmptyPool, List.isEmpty_iff, h1, h2]
  · simp [firstNonEmptyPool, List.isEmpty_iff, h1]

/-- When tier 2 is non-empty the chain stops at tier 1 or tier 2. -/
lemma fallbackChain_of_tier2 (bank : List BankRecord) (did : Int)
    (diff : Difficulty) (used : List Int)
    (h2 : poolTier2 bank did used ≠ []) :
    fallbackChain bank did diff used = poolTier1 bank did diff used ∨
    fallbackChain bank did diff used = poolTier2 bank did used := by
  unfold fallbackChain
  by_cases h1 : poolTier1 bank did diff used = []
  · right
    simp [firstNonEmptyPool, List.isEmpty_iff, h1, h2]
  · left
    simp [firstNonEmptyPool, List.isEmpty_iff, h1]

/-- `get_offline_question` returns nothing exactly when the bank is empty
(the last fallback pool is the entire bank). -/
lemma get_offline_none_iff (bank : List BankRecord) (did : Int)
    (diff : Difficulty) (used : List Int) (pick : Nat) :
    get_offline_question bank did diff used pick = none ↔ bank = [] := by
  constructor
  · intro h
    by_contra hb
    have hne := fallbackChain_ne bank did diff used hb
    have hpos : 0 < (fallbackChain bank did diff used).length :=
      List.length_pos.mpr hne
    rw [get_offline_eq, List.get?_eq_get (Nat.mod_lt _ hpos)] at h
    simp at h
  · intro h
    subst h
    rfl

/-- C2: `get_offline_question` evaluates the four candidate pools in
order, picks (an arbitrary index modulo the pool size, standing for
`random.choice`) from the first non-empty pool, returns `None` iff the
bank is empty, and never returns a cross-domain record while the tier-2
pool is non-empty. -/
theorem C2_offline_fallback (bank : List BankRecord) (did : Int)
    (diff : Difficulty) (used : List Int) (pick : Nat) :
    (get_offline_question bank did diff used pick = none ↔ bank = []) ∧
    get_offline_question bank did diff used pick =
      ((fallbackChain bank did diff used).get?
        (pick % (fallbackChain bank did diff used).length)).map
        (fun raw => toQuestion raw did diff) ∧
    (bank ≠ [] → fallbackChain bank did diff used ≠ []) ∧
    (poolTier2 bank did used ≠ [] → ∀ q : Question,
      get_offline_question bank did diff used pick = some q →
      q.domain_id = did) := by
  refine ⟨get_offline_none_iff bank did diff used pick,
    get_offline_eq bank did diff used pick,
    fallbackChain_ne bank did diff used, ?_⟩
  intro h2 q hq
  rw [get_offline_eq] at hq
  obtain ⟨raw, hraw, hq2⟩ := Option.map_eq_some'.mp hq
  have hmem : raw ∈ fallbackChain bank did diff used := List.get?_mem hraw
  have hdom : raw.domain = some did := by
    rcases fallbackChain_of_tier2 bank did diff used h2 with hc | hc <;>
      rw [hc] at hmem
    · have hf := List.of_mem_filter hmem
      simp only [poolTier1, Bool.and_eq_true, beq_iff_eq] at hf ⊢
      exact hf.1.1
    · have hf := List.of_mem_filter hmem
      simp only [poolTier2, Bool.and_eq_true, beq_iff_eq] at hf ⊢
      exact hf.1
  rw [← hq2]
  show raw.domain.getD did = did
  rw [hdom]
  rfl

/-- A two-record bank used in concrete checks: a domain-1 easy record and a
domain-2 medium record, both carrying ids. -/
def recA2 : BankRecord :=
  { domain := some 1, difficulty := some .easy, id := some 10, topic := none,
    question := .str "q1",
    options := .arr [.str "a", .str "b", .str "c", .str "d"],
    answer := 0, explanation := none }

/-- Companion domain-2 record of the concrete bank. -/
def recB2 : BankRecord :=
  { domain := some 2, difficulty := some .medium, id := some 20, topic := none,
    question := .str "q2",
    options := .arr [.str "a", .str "b", .str "c", .str "d"],
    answer := 1, explanation := none }

/-- Concrete bank with no domain-1 medium record but one domain-1 easy
record. -/
def bankC2 : List BankRecord := [recA2, recB2]

/-- Witness for C2: requesting domain 1 / medium on `bankC2` lands in the
tier-2 pool and returns the same-domain record. -/
theorem C2_offline_fallback_witness :
    (toQuestion recA2 1 Difficulty.medium).domain_id = 1 ∧
    get_offline_question bankC2 1 Difficulty.medium [] 0 =
      some (toQuestion recA2 1 Difficulty.medium) := by
  have hp2 : poolTier2 bankC2 1 [] = [recA2] := rfl
  refine ⟨(C2_offline_fallback bankC2 1 Difficulty.medium [] 0).2.2.2
    (by rw [hp2]; exact List.cons_ne_nil _ _) _ rfl, rfl⟩

/-- C3: in hybrid mode `get_question` returns a bank question whenever the
bank holds at least one record — independently of what the generative path
would produce — and delegates to the generative path exactly when the bank
is empty. -/
theorem C3_hybrid_prefers_bank (did : Int) (diff : Difficulty)
    (used : List Int) (pick : Nat) (bank : List BankRecord)
    (ai : Except String Question) :
    (bank ≠ [] → ∃ q : Question,
      get_offline_question bank did diff used pick = some q ∧
      ∀ ai2 : Except String Question,
        get_question did diff used .hybrid bank pick ai2 = .ok q) ∧
    (bank = [] → get_question did diff used .hybrid bank pick ai = ai) := by
  constructor
  · intro hb
    obtain ⟨q, hq⟩ : ∃ q, get_offline_question bank did diff used pick = some q := by
      cases hopt : get_offline_question bank did diff used pick with
      | none => exact absurd ((get_offline_none_iff bank did diff used pick).mp hopt) hb
      | some q => exact ⟨q, rfl⟩
    refine ⟨q, hq, fun ai2 => ?_⟩
    show (match get_offline_question bank did diff used pick with
      | some q2 => Except.ok q2
      | none => ai2) = Except.ok q
    rw [hq]
  · intro hb
    subst hb
    rfl

/-- Witness for C3: on the concrete two-record bank, hybrid mode returns
the bank question whatever the generative outcome would have been; on an
empty bank it returns the generative outcome. -/
theorem C3_hybrid_prefers_bank_witness :
    get_question 1 Difficulty.medium [] Mode.hybrid bankC2 0
      (Except.error "x") = Except.ok (toQuestion recA2 1 Difficulty.medium) ∧
    get_question 1 Difficulty.medium [] Mode.hybrid [] 0
      (Except.error "x") = Except.error "x" := by
  constructor
  · obtain ⟨q, hq, hall⟩ :=
      (C3_hybrid_prefers_bank 1 Difficulty.medium [] 0 bankC2
        (Except.error "x")).1 (List.cons_ne_nil _ _)
    have hq2 : q = toQuestion recA2 1 Difficulty.medium :=
      Option.some_inj.mp (hq.symm.trans
        (rfl : get_offline_question bankC2 1 Difficulty.medium [] 0 =
          some (toQuestion recA2 1 Difficulty.medium)))
    rw [hq2] at hall
    exact hall (Except.error "x")
  · exact (C3_hybrid_prefers_bank 1 Difficulty.medium [] 0 []
      (Except.error "x")).2 rfl

/-- C10: a bank question carries the record's own difficulty when the
record has one (defaulting to the requested tier only when absent), and
the answer handler updates θ with the anchor of that question difficulty,
not of the requested tier. -/
theorem C10_bank_difficulty_drives_update (bank : List BankRecord)
    (did : Int) (diff : Difficulty) (used : List Int) (pick : Nat)
    (q : Question)
    (hq : get_offline_question bank did diff used pick = some q) :
    (∃ r ∈ bank, q = toQuestion r did diff ∧
      q.difficulty = r.difficulty.getD diff ∧
      (∀ d0 : Difficulty, r.difficulty = some d0 → q.difficulty = d0) ∧
      (r.difficulty = none → q.difficulty = diff)) ∧
    ∀ (cat : CATEngine) (i : Int),
      answer_click cat q i = cat.update q.difficulty (i == q.answer) ∧
      (answer_click cat q i).theta =
        max (-3.0) (min 3.0 (cat.theta +
          (if (i == q.answer) then
            0.4 * (1 - cat.probability (DIFFICULTIES.theta q.difficulty)
              1.2 0.25)
          else -0.4 * cat.probability (DIFFICULTIES.theta q.difficulty)
            1.2 0.25))) := by
  constructor
  · rw [get_offline_eq] at hq
    obtain ⟨raw, hraw, hq2⟩ := Option.map_eq_some'.mp hq
    refine ⟨raw,
      fallbackChain_subset bank did diff used raw (List.get?_mem hraw),
      hq2.symm, ?_, ?_, ?_⟩
    · rw [← hq2]
      rfl
    · intro d0 hd0
      rw [← hq2]
      show raw.difficulty.getD diff = d0
      rw [hd0]
      rfl
    · intro hd0
      rw [← hq2]
      show raw.difficulty.getD diff = diff
      rw [hd0]
      rfl
  · intro cat i
    exact ⟨rfl, rfl⟩

/-- A domain-1 record whose own difficulty is hard, used to check that a
fallback hit adjusts θ by the record's difficulty. -/
def recH10 : BankRecord :=
  { domain := some 1, difficulty := some .hard, id := none, topic := none,
    question := .str "q3",
    options := .arr [.str "a", .str "b", .str "c", .str "d"],
    answer := 0, explanation := none }

/-- Witness for C10: requesting medium from a bank holding only a hard
domain-1 record returns that record with difficulty hard. -/
theorem C10_bank_difficulty_drives_update_witness :
    (∃ r ∈ [recH10],
      toQuestion recH10 1 Difficulty.medium = toQuestion r 1 Difficulty.medium ∧
      (toQuestion recH10 1 Difficulty.medium).difficulty =
        r.difficulty.getD Difficulty.medium ∧
      (∀ d0 : Difficulty, r.difficulty = some d0 →
        (toQuestion recH10 1 Difficulty.medium).difficulty = d0) ∧
      (r.difficulty = none →
        (toQuestion recH10 1 Difficulty.medium).difficulty =
          Difficulty.medium)) ∧
    (toQuestion recH10 1 Difficulty.medium).difficulty = Difficulty.hard := by
  refine ⟨(C10_bank_difficulty_drives_update [recH10] 1 Difficulty.medium []
    0 (toQuestion recH10 1 Difficulty.medium) rfl).1, rfl⟩

/-- C4: `generate_question_ai` makes at most 3 attempts, sleeps a fixed
1.5 seconds between consecutive attempts and never after the last, and
when all three attempts fail it raises a terminal error carrying the third
failure's diagnostic text. -/
theorem C4_retry_policy (tries : Nat → Except String Question) :
    (generate_question_ai tries).attempts ≤ 3 ∧
    (generate_question_ai tries).waits =
      List.replicate ((generate_question_ai tries).attempts - 1)
        ((3 : ℚ) / 2) ∧
    (∀ e1 e2 e3 : String, tries 1 = .error e1 → tries 2 = .error e2 →
      tries 3 = .error e3 →
      (generate_question_ai tries).outcome =
        .error ("AI generation failed after 3 attempts: " ++ e3) ∧
      (generate_question_ai tries).attempts = 3 ∧
      (generate_question_ai tries).waits = [(3 : ℚ) / 2, (3 : ℚ) / 2]) := by
  unfold generate_question_ai
  cases h1 : tries 1 with
  | ok q => simp [h1, List.replicate]
  | error e1 =>
    cases h2 : tries 2 with
    | ok q => simp [h1, h2, List.replicate]
    | error e2 =>
      cases h3 : tries 3 with
      | ok q => simp [h1, h2, h3, List.replicate]
      | error e3 => simp [h1, h2, h3, List.replicate]

/-- Witness for C4: three identical failures produce the terminal error
with the last diagnostic, after exactly 3 attempts and 2 waits. -/
theorem C4_retry_policy_witness :
    (generate_question_ai (fun _ => Except.error "boom")).outcome =
      Except.error ("AI generation failed after 3 attempts: " ++ "boom") ∧
    (generate_question_ai (fun _ => Except.error "boom")).attempts = 3 ∧
    (generate_question_ai (fun _ => Except.error "boom")).waits =
      [(3 : ℚ) / 2, (3 : ℚ) / 2] :=
  (C4_retry_policy (fun _ => Except.error "boom")).2.2 "boom" "boom" "boom"
    rfl rfl rfl

/-- A successful key access only happens on an object. -/
lemma jget_obj {v : JVal} {k : String} {x : JVal} (h : jget v k = some x) :
    ∃ kvs, v = .obj kvs := by
  cases v with
  | obj kvs => exact ⟨kvs, rfl⟩
  | null => simp [jget] at h
  | bool b => simp [jget] at h
  | num n => simp [jget] at h
  | str s => simp [jget] at h
  | arr xs => simp [jget] at h

/-- C6 amended: a reply is accepted only when, after discarding markdown
code fences and any content preceding the first opening brace, the
remainder parses as a single JSON object whose `options` entry has length
exactly 4, whose `answer` entry passes the `in (0, 1, 2, 3)` membership
test, and which carries `question` and `explanation` entries; everything
else is a validation failure subject to retry. -/
theorem C6_validation_schema (did : Int) (diff : Difficulty) (topic : String)
    (text : List Char) (q : Question)
    (hq : validateReply did diff topic text = some q) :
    ∃ data : JVal, pyJsonLoads (cleanReply text) = some data ∧
      (∃ kvs, data = JVal.obj kvs) ∧
      (∃ opts, jget data "options" = some opts ∧ jlen opts = some 4 ∧
        q.options = opts) ∧
      (∃ ans, jget data "answer" = some ans ∧ answerIn0123 ans = true ∧
        q.answer = jint ans) ∧
      (∃ qv, jget data "question" = some qv ∧ q.question = qv) ∧
      (∃ ev, jget data "explanation" = some ev ∧ q.explanation = ev) ∧
      q.domain_id = did ∧ q.difficulty = diff ∧ q.source = .ai := by
  cases hp : pyJsonLoads (cleanReply text) with
  | none => simp [validateReply, hp] at hq
  | some data =>
    cases hopts : jget data "options" with
    | none => simp [validateReply, hp, hopts] at hq
    | some opts =>
      cases hlen : jlen opts with
      | none => simp [validateReply, hp, hopts, hlen] at hq
      | some n =>
        by_cases hn : n = 4
        · subst hn
          cases hans : jget data "answer" with
          | none => simp [validateReply, hp, hopts, hlen, hans] at hq
          | some ans =>
            by_cases hb : answerIn0123 ans = true
            · cases hqv : jget data "question" with
              | none =>
                simp [validateReply, hp, hopts, hlen, hans, hb, hqv] at hq
              | some qv =>
                cases hev : jget data "explanation" with
                | none =>
                  simp [validateReply, hp, hopts, hlen, hans, hb, hqv, hev]
                    at hq
                | some ev =>
                  have hq2 :
                      ({ domain_id := did, difficulty := diff,
                         topic := (jget data "topic").getD (.str topic),
                         question := qv, options := opts,
                         answer := jint ans, explanation := ev,
                         source := .ai } : Question) = q := by
                    have := hq
                    simp only [validateReply, hp, hopts, hlen, hans, hb, hqv,
                      hev] at this
                    simpa using this
                  refine ⟨data, rfl, jget_obj hopts,
                    ⟨opts, hopts, hlen, by rw [← hq2]⟩,
                    ⟨ans, hans, hb, by rw [← hq2]⟩,
                    ⟨qv, hqv, by rw [← hq2]⟩,
                    ⟨ev, hev, by rw [← hq2]⟩,
                    by rw [← hq2], by rw [← hq2], by rw [← hq2]⟩
            · simp [validateReply, hp, hopts, hlen, hans, hb] at hq
        · simp [validateReply, hp, hopts, hlen, hn] at hq

/-- A provider reply whose JSON object is preceded by prose, so the reply
as a whole is not a JSON object. -/
def C6preamble : List Char :=
  "Sure! \x7b\"question\":\"Q\",\"options\":[\"a\",\"b\",\"c\",\"d\"],\"answer\":1,\"explanation\":\"E\",\"topic\":\"t\"\x7d".toList

/-- The question the pipeline builds out of `C6preamble`. -/
def C6question : Question :=
  { domain_id := 1, difficulty := .medium, topic := .str "t",
    question := .str "Q",
    options := .arr [.str "a", .str "b", .str "c", .str "d"],
    answer := 1, explanation := .str "E", source := .ai }

/-- C6 counterexample: this reply is not a bare JSON object — `json.loads`
on the raw text fails because of the leading prose — yet the validation
code accepts it (it slices from the first opening brace before parsing)
instead of treating it as a validation failure subject to retry. -/
theorem C6_counterexample :
    validateReply 1 Difficulty.medium "t" C6preamble = some C6question ∧
    pyJsonLoads C6preamble = none :=
  ⟨rfl, rfl⟩

/-- A bare JSON-object reply with no other content. -/
def C6bare : List Char :=
  "\x7b\"question\":\"Q\",\"options\":[\"a\",\"b\",\"c\",\"d\"],\"answer\":2,\"explanation\":\"E\",\"topic\":\"t\"\x7d".toList

/-- The question the pipeline builds out of `C6bare`. -/
def C6bareQ : Question :=
  { domain_id := 1, difficulty := .medium, topic := .str "t",
    question := .str "Q",
    options := .arr [.str "a", .str "b", .str "c", .str "d"],
    answer := 2, explanation := .str "E", source := .ai }

/-- Witness for the amended C6 on a concrete accepted reply. -/
theorem C6_validation_schema_witness :
    ∃ data : JVal, pyJsonLoads (cleanReply C6bare) = some data ∧
      (∃ kvs, data = JVal.obj kvs) := by
  obtain ⟨data, h1, h2, _⟩ :=
    C6_validation_schema 1 Difficulty.medium "t" C6bare C6bareQ rfl
  exact ⟨data, h1, h2⟩
